import Mathlib

/-!
Verification of the capture-and-replay pipeline of the gartic-phone-extended
userscript: the Socket.IO protocol decoder (src/Modules/Timelapse/Protocol.js),
the recorder (src/Modules/Timelapse/Recorder.js), the playback engine
(src/Modules/Timelapse/Player.js) and the session import/export module
(src/Modules/Timelapse/IO.js).

JavaScript values flowing through the decoder are modelled by an inductive
`Json` type (JS numbers as rationals; the host `JSON.parse` primitive is
modelled by an executable recursive-descent parser for the JSON grammar).
Absent object keys are modelled by `Option`/`Json.null`; the result of a JS
arithmetic operation on a non-number (NaN) is modelled by `Json.null`, which
like NaN is falsy.  Exceptions are modelled by `Option` results: a function
that catches internally is total here.
-/

/-- A JSON value / JavaScript data value.  Numbers are rationals. -/
inductive Json where
  | null : Json
  | bool : Bool → Json
  | num : ℚ → Json
  | str : String → Json
  | arr : List Json → Json
  | obj : List (String × Json) → Json

/-- JavaScript truthiness on data values: `null`, `false`, `0` and the empty
string are falsy (NaN, modelled as `null`, is falsy as well). -/
def jsFalsy : Json → Bool
  | Json.null => true
  | Json.bool false => true
  | Json.num q => q = 0
  | Json.str s => s = ""
  | _ => false

/-- The JS expression `v || d`. -/
def jsOr (v d : Json) : Json := if jsFalsy v then d else v

/-- Property lookup on a JS object built by `JSON.parse`: with duplicate keys
the last binding wins; lookup on a non-object yields `undefined` (`none`). -/
def lookupLast (kvs : List (String × Json)) (k : String) : Option Json :=
  kvs.foldl (fun acc kv => if kv.1 = k then some kv.2 else acc) none

/-- Property access `j[k]` for a JS data value: `none` models `undefined`. -/
def jget (j : Json) (k : String) : Option Json :=
  match j with
  | Json.obj kvs => lookupLast kvs k
  | _ => none

/-- The character class `[0-9]` used by the decoder's regexes. -/
def isDigitChar (c : Char) : Bool := '0' ≤ c && c ≤ '9'

/-- Numeric value of a decimal digit character. -/
def digitVal (c : Char) : Nat := c.toNat - '0'.toNat

/-- Longest digit prefix of a character list, and the remainder. -/
def takeDigits : List Char → List Char × List Char
  | [] => ([], [])
  | c :: cs =>
    if isDigitChar c then
      let p := takeDigits cs
      (c :: p.1, p.2)
    else ([], c :: cs)

/-- Decimal value of a digit list. -/
def digitsToNat (ds : List Char) : Nat :=
  ds.foldl (fun a c => a * 10 + digitVal c) 0

/-- Skip JSON whitespace. -/
def skipWs : List Char → List Char
  | c :: cs => if c = ' ' ∨ c = '\t' ∨ c = '\n' ∨ c = '\r' then skipWs cs else c :: cs
  | [] => []

/-- Hexadecimal digit value, for `\uXXXX` escapes. -/
def hexVal (c : Char) : Option Nat :=
  if isDigitChar c then some (digitVal c)
  else if 'a' ≤ c ∧ c ≤ 'f' then some (c.toNat - 'a'.toNat + 10)
  else if 'A' ≤ c ∧ c ≤ 'F' then some (c.toNat - 'A'.toNat + 10)
  else none

/-- Body of a JSON string literal (opening quote already consumed): returns the
decoded characters and the remainder after the closing quote. -/
def parseStrChars : List Char → Option (List Char × List Char)
  | [] => none
  | '"' :: cs => some ([], cs)
  | '\\' :: 'u' :: h1 :: h2 :: h3 :: h4 :: cs =>
    match hexVal h1, hexVal h2, hexVal h3, hexVal h4 with
    | some a, some b, some c, some d =>
      (parseStrChars cs).map fun p =>
        (Char.ofNat (((a * 16 + b) * 16 + c) * 16 + d) :: p.1, p.2)
    | _, _, _, _ => none
  | '\\' :: e :: cs =>
    let c? : Option Char :=
      if e = '"' then some '"'
      else if e = '\\' then some '\\'
      else if e = '/' then some '/'
      else if e = 'n' then some '\n'
      else if e = 't' then some '\t'
      else if e = 'r' then some '\r'
      else if e = 'b' then some (Char.ofNat 8)
      else if e = 'f' then some (Char.ofNat 12)
      else none
    match c? with
    | some c => (parseStrChars cs).map fun p => (c :: p.1, p.2)
    | none => none
  | '\\' :: [] => none
  | c :: cs => (parseStrChars cs).map fun p => (c :: p.1, p.2)

/-- A JSON number: strict grammar (`-?(0|[1-9][0-9]*)(.[0-9]+)?([eE][+-]?[0-9]+)?`).
The denoted value `sign * (int + frac / 10^fracLen) * 10^exp` is computed in
the equivalent mantissa/exponent form `sign * (int * 10^fracLen + frac) *
10^(exp - fracLen)` so that integer-valued results stay in `ℤ`. -/
def parseNum (cs0 : List Char) : Option (ℚ × List Char) :=
  let sp : Bool × List Char :=
    match cs0 with
    | '-' :: r => (true, r)
    | _ => (false, cs0)
  let neg := sp.1
  let cs1 := sp.2
  let ipart : Option (Nat × List Char) :=
    match cs1 with
    | '0' :: r => some (0, r)
    | c :: _ =>
      if isDigitChar c then
        let p := takeDigits cs1
        some (digitsToNat p.1, p.2)
      else none
    | [] => none
  match ipart with
  | none => none
  | some (ip, r1) =>
    let fpart : Option (Nat × Nat × List Char) :=
      match r1 with
      | '.' :: r =>
        let p := takeDigits r
        if p.1.isEmpty then none
        else some (digitsToNat p.1, p.1.length, p.2)
      | _ => some (0, 0, r1)
    match fpart with
    | none => none
    | some (fracNat, fracLen, r2) =>
      let epart : Option (ℤ × List Char) :=
        match r2 with
        | e :: r =>
          if e = 'e' ∨ e = 'E' then
            let sr : ℤ × List Char :=
              match r with
              | '+' :: rr => (1, rr)
              | '-' :: rr => (-1, rr)
              | _ => (1, r)
            let p := takeDigits sr.2
            if p.1.isEmpty then none
            else some (sr.1 * (digitsToNat p.1 : ℤ), p.2)
          else some (0, r2)
        | [] => some (0, r2)
      match epart with
      | none => none
      | some (ex, r3) =>
        let mantissa : ℤ := (if neg then -1 else 1) * ((ip : ℤ) * 10 ^ fracLen + (fracNat : ℤ))
        let expo : ℤ := ex - (fracLen : ℤ)
        some ((if 0 ≤ expo then ((mantissa * 10 ^ expo.toNat : ℤ) : ℚ)
               else (mantissa : ℚ) / ((10 ^ (-expo).toNat : ℤ) : ℚ)), r3)

mutual

/-- JSON value parser (fuel-indexed; the fuel chosen by `jsonParse` is always
sufficient for its input). -/
def parseVal : Nat → List Char → Option (Json × List Char)
  | 0, _ => none
  | Nat.succ fuel, cs =>
    match skipWs cs with
    | [] => none
    | 'n' :: 'u' :: 'l' :: 'l' :: rest => some (Json.null, rest)
    | 't' :: 'r' :: 'u' :: 'e' :: rest => some (Json.bool true, rest)
    | 'f' :: 'a' :: 'l' :: 's' :: 'e' :: rest => some (Json.bool false, rest)
    | '"' :: rest => (parseStrChars rest).map fun p => (Json.str (String.mk p.1), p.2)
    | '[' :: rest =>
      (match skipWs rest with
       | ']' :: r2 => some (Json.arr [], r2)
       | cs2 => (parseItems fuel cs2).map fun p => (Json.arr p.1, p.2))
    | '{' :: rest =>
      (match skipWs rest with
       | '}' :: r2 => some (Json.obj [], r2)
       | cs2 => (parseFields fuel cs2).map fun p => (Json.obj p.1, p.2))
    | cs1 => (parseNum cs1).map fun p => (Json.num p.1, p.2)

/-- Comma-separated JSON array elements up to the closing bracket. -/
def parseItems : Nat → List Char → Option (List Json × List Char)
  | 0, _ => none
  | Nat.succ fuel, cs =>
    match parseVal fuel cs with
    | none => none
    | some (v, r) =>
      match skipWs r with
      | ',' :: r2 => (parseItems fuel (skipWs r2)).map fun p => (v :: p.1, p.2)
      | ']' :: r2 => some ([v], r2)
      | _ => none

/-- Comma-separated JSON object members up to the closing brace. -/
def parseFields : Nat → List Char → Option (List (String × Json) × List Char)
  | 0, _ => none
  | Nat.succ fuel, cs =>
    match skipWs cs with
    | '"' :: r =>
      (match parseStrChars r with
       | none => none
       | some (k, r1) =>
         match skipWs r1 with
         | ':' :: r2 =>
           (match parseVal fuel (skipWs r2) with
            | none => none
            | some (v, r3) =>
              match skipWs r3 with
              | ',' :: r4 =>
                (parseFields fuel r4).map fun p => ((String.mk k, v) :: p.1, p.2)
              | '}' :: r4 => some ([(String.mk k, v)], r4)
              | _ => none)
         | _ => none)
    | _ => none

end

/-- The host `JSON.parse` primitive: parses the whole string as one JSON value
(trailing whitespace allowed); `none` models a thrown `SyntaxError`. -/
def jsonParse (s : String) : Option Json :=
  match parseVal (s.length + 16) s.data with
  | some (j, rest) => if (skipWs rest).isEmpty then some j else none
  | none => none

/-! ## Protocol module (src/Modules/Timelapse/Protocol.js) -/

/-- The `data` field of a parsed Socket.IO packet: either parsed JSON or (when
the payload failed to parse as JSON) the raw remainder string. -/
inductive PacketData where
  | json : Json → PacketData
  | raw : String → PacketData

/-- A parsed Socket.IO packet (`SocketPacket` in the source): message type,
namespace, payload and optional ack id. -/
structure SocketPacket where
  type : Nat
  nsp : String
  data : PacketData
  id : Option Nat

/-- Split at `packetStr.indexOf(',')`: the part before the first comma and the part
after it, or `none` when there is no comma. -/
def splitAtComma : List Char → Option (List Char × List Char)
  | [] => none
  | ',' :: r => some ([], r)
  | c :: r => (splitAtComma r).map fun p => (c :: p.1, p.2)

/-- Names of drawing-related events (`DRAWING_EVENTS` in the source). -/
def DRAWING_EVENTS : List String := ["draw", "clear", "undo", "line", "stroke", "path"]

/-- Tail of `_parseSocketPacket`, after the Engine.IO tag has been handled: consumes
the Socket.IO message-type digit, the optional `/namespace,` prefix and the
optional ack id (digits followed by a comma, the comma not consumed), then
parses the remainder as JSON, falling back to the raw string. A remainder not
starting with a digit is parsed directly as JSON (degenerate `EVENT` packet);
a JSON failure there propagates to the enclosing catch, i.e. `none`. -/
def parseAfterEngine (cs : List Char) : Option SocketPacket :=
  match cs with
  | c :: r =>
    if isDigitChar c then
      let messageType := digitVal c
      let nspP : String × List Char :=
        match r with
        | '/' :: _ =>
          match splitAtComma r with
          | some p => (String.mk p.1, p.2)
          | none => ("/", r)
        | _ => ("/", r)
      let idP : Option Nat × List Char :=
        let p := takeDigits nspP.2
        match p.1, p.2 with
        | _ :: _, ',' :: _ => (some (digitsToNat p.1), p.2)
        | _, _ => (none, nspP.2)
      let data : PacketData :=
        match jsonParse (String.mk idP.2) with
        | some j => PacketData.json j
        | none => PacketData.raw (String.mk idP.2)
      some ⟨messageType, nspP.1, data, idP.1⟩
    else
      (jsonParse (String.mk cs)).map fun j => ⟨2, "/", PacketData.json j, none⟩
  | [] => (jsonParse "").map fun j => ⟨2, "/", PacketData.json j, none⟩

/-- The function `_parseSocketPacket`: strips the Engine.IO transport tag (a leading digit);
a tag other than `4` (MESSAGE) yields `null`.  All structural failures are
caught and yield `null` (`none`). -/
def parseSocketPacket (rawPacket : String) : Option SocketPacket :=
  match rawPacket.data with
  | c :: r =>
    if isDigitChar c then
      if digitVal c = 4 then parseAfterEngine r else none
    else parseAfterEngine (c :: r)
  | [] => parseAfterEngine []

/-- The predicate `_isDrawingEvent`: the packet is an EVENT (type 2) whose data is a
non-empty array whose first element is a whitelisted event name. -/
def isDrawingEvent (packet : SocketPacket) : Bool :=
  match packet.type, packet.data with
  | 2, PacketData.json (Json.arr (Json.str name :: _)) => DRAWING_EVENTS.contains name
  | _, _ => false

/-- The normalized drawing data produced by `_normalizeDrawingData`. -/
structure NormData where
  type : String
  x : Json
  y : Json
  size : Json
  color : Json
  opacity : Json
  prevX : Json
  prevY : Json
  action : Option String

/-- JS `v * 100` on a decoded value: numbers multiply; any other operand would
give NaN, modelled as `Json.null` (falsy, like NaN). -/
def mul100 : Json → Json
  | Json.num q => Json.num (q * 100)
  | _ => Json.null

/-- One `if (rawData.key !== undefined) normalized.field = ...;` line of
`_normalizeDrawingData`: apply the update when the key is present. -/
def applyIfPresent (o : Option Json) (f : NormData → Json → NormData) (n : NormData) : NormData :=
  match o with
  | some v => f n v
  | none => n

/-- The function `_normalizeDrawingData`: starts from defaults and overrides a field for
each present key, in source order (so a later alias overrides an earlier one:
`px` over `prevX`, `thickness` over `width` over `size`, `c` over `color`,
`a` over `alpha` over `opacity`).  A present key always overrides, whatever
its value (the source tests `!== undefined`). -/
def normalizeDrawingData (eventType : String) (rawData : Json) : NormData :=
  let n0 : NormData :=
    ⟨eventType, Json.num 0, Json.num 0, Json.num 5, Json.str "#000000",
     Json.num 100, Json.null, Json.null, none⟩
  let n1 := applyIfPresent (jget rawData "x") (fun n v => { n with x := v }) n0
  let n2 := applyIfPresent (jget rawData "y") (fun n v => { n with y := v }) n1
  let n3 := applyIfPresent (jget rawData "prevX") (fun n v => { n with prevX := v }) n2
  let n4 := applyIfPresent (jget rawData "prevY") (fun n v => { n with prevY := v }) n3
  let n5 := applyIfPresent (jget rawData "px") (fun n v => { n with prevX := v }) n4
  let n6 := applyIfPresent (jget rawData "py") (fun n v => { n with prevY := v }) n5
  let n7 := applyIfPresent (jget rawData "size") (fun n v => { n with size := v }) n6
  let n8 := applyIfPresent (jget rawData "width") (fun n v => { n with size := v }) n7
  let n9 := applyIfPresent (jget rawData "thickness") (fun n v => { n with size := v }) n8
  let n10 := applyIfPresent (jget rawData "color") (fun n v => { n with color := v }) n9
  let n11 := applyIfPresent (jget rawData "c") (fun n v => { n with color := v }) n10
  let n12 := applyIfPresent (jget rawData "opacity") (fun n v => { n with opacity := mul100 v }) n11
  let n13 := applyIfPresent (jget rawData "alpha") (fun n v => { n with opacity := mul100 v }) n12
  let n14 := applyIfPresent (jget rawData "a") (fun n v => { n with opacity := mul100 v }) n13
  if eventType = "clear" ∨ eventType = "undo" then { n14 with action := some eventType } else n14

/-- A recognized drawing event (`DrawingEvent` in the source). -/
structure DrawingEvent where
  type : String
  data : NormData
  timestamp : Nat

/-- The function `_extractDrawingData`: for a drawing event, the event args are the second
array element, replaced by `{}` when absent or falsy (`packet.data[1] || {}`),
then normalized.  The timestamp is `Date.now()`, passed in as `now`. -/
def extractDrawingData (now : Nat) (packet : SocketPacket) : Option DrawingEvent :=
  if isDrawingEvent packet then
    match packet.data with
    | PacketData.json (Json.arr (Json.str name :: rest)) =>
      let eventData : Json :=
        match rest with
        | [] => Json.obj []
        | d :: _ => if jsFalsy d then Json.obj [] else d
      some ⟨name, normalizeDrawingData name eventData, now⟩
    | _ => none
  else none

/-- The protocol parser's public `parse`: parse the packet, then extract the
drawing event if applicable; `none` on every failure (never throws). -/
def protocolParse (now : Nat) (rawPacket : String) : Option DrawingEvent :=
  (parseSocketPacket rawPacket).bind (extractDrawingData now)

/-! ## Recorder module (src/Modules/Timelapse/Recorder.js) -/

/-- A buffered stroke point (`StrokePoint` in the source).  Field values keep
their JS dynamic type (`Json`); keys the source leaves out of the object
literal (`prevX`/`prevY` on clear/undo points, `action` on line points) are
modelled as `Json.null` / `none`. -/
structure StrokePoint where
  type : String
  x : Json
  y : Json
  prevX : Json
  prevY : Json
  size : Json
  color : Json
  opacity : Json
  time : Nat
  action : Option String

/-- A recording session (`RecordingSession` in the source). -/
structure Session where
  id : String
  startTime : Nat
  endTime : Nat
  strokes : List StrokePoint
  metadata : Json

/-- The metadata the Recorder puts on a fresh session. -/
def sessionMetadata : Json :=
  Json.obj [("version", Json.str "1.0"), ("source", Json.str "gartic-phone-extension")]

/-- The function `_convertToStrokePoint` on a non-null drawing event (the `!drawingEvent`
guard is handled by `convertToStrokePointOpt`; `drawingEvent.data` is always a
truthy object here).  Note every field of the line branch goes through `||`,
so falsy normalized values fall back to the defaults. -/
def convertToStrokePoint (drawingEvent : DrawingEvent) : StrokePoint :=
  if drawingEvent.type = "clear" ∨ drawingEvent.type = "undo" then
    { type := drawingEvent.type, x := Json.num 0, y := Json.num 0,
      prevX := Json.null, prevY := Json.null, size := Json.num 0,
      color := Json.str "#000000", opacity := Json.num 0,
      time := drawingEvent.timestamp, action := some drawingEvent.type }
  else
    let data := drawingEvent.data
    { type := "line",
      x := jsOr data.x (Json.num 0),
      y := jsOr data.y (Json.num 0),
      prevX := jsOr data.prevX Json.null,
      prevY := jsOr data.prevY Json.null,
      size := jsOr data.size (Json.num 5),
      color := jsOr data.color (Json.str "#000000"),
      opacity := jsOr data.opacity (Json.num 100),
      time := drawingEvent.timestamp, action := none }

/-- The function `_convertToStrokePoint` including its null guard. -/
def convertToStrokePointOpt : Option DrawingEvent → Option StrokePoint
  | none => none
  | some ev => some (convertToStrokePoint ev)

/-- The decode-and-convert pipeline a captured frame goes through while
recording: protocol parse followed by stroke conversion. -/
def recorderCapture (now : Nat) (rawPacket : String) : Option StrokePoint :=
  convertToStrokePointOpt (protocolParse now rawPacket)

/-- Data handed to `WebSocket.send`: a textual frame or a binary payload. -/
inductive WireData where
  | text : String → WireData
  | binary : WireData

/-- The Recorder's mutable state. -/
structure RecorderState where
  isRecording : Bool
  currentSession : Option Session
  strokeBuffer : List StrokePoint
  patched : Bool
  hasCallback : Bool

/-- Recorder state at module creation. -/
def recorderInit : RecorderState :=
  ⟨false, none, [], false, false⟩

/-- Externally visible effects of one `_interceptedSend` call, in order. -/
inductive TraceEv where
  | forward : WireData → TraceEv
  | callbackFired : StrokePoint → String → TraceEv

/-- The frames a trace hands to the original `WebSocket.prototype.send`. -/
def forwards (tr : List TraceEv) : List WireData :=
  tr.filterMap fun e =>
    match e with
    | TraceEv.forward d => some d
    | _ => none

/-- The handler `_interceptedSend`: forwards the frame to the original send first, then —
only while recording — decodes textual frames and appends the resulting
stroke point to the buffer, firing the data callback.  Decode errors are
caught internally (all functions here are total), so the frame is forwarded
in every case. -/
def interceptedSend (st : RecorderState) (data : WireData) (now : Nat) :
    List TraceEv × RecorderState :=
  let fwd := TraceEv.forward data
  match st.isRecording, st.currentSession with
  | true, some sess =>
    match data with
    | WireData.binary => ([fwd], st)
    | WireData.text s =>
      match convertToStrokePointOpt (protocolParse now s) with
      | none => ([fwd], st)
      | some strokePoint =>
        let st1 := { st with strokeBuffer := st.strokeBuffer ++ [strokePoint] }
        if st.hasCallback then ([fwd, TraceEv.callbackFired strokePoint sess.id], st1)
        else ([fwd], st1)
  | _, _ => ([fwd], st)

/-- The operation `stopRecording`: `null` when no recording is active; otherwise finalizes
the session (end time, buffer copied into `strokes`), resets the state and
returns the finalized session. -/
def stopRecording (now : Nat) (st : RecorderState) : Option Session × RecorderState :=
  match st.isRecording, st.currentSession with
  | true, some sess =>
    let completed := { sess with endTime := now, strokes := st.strokeBuffer }
    (some completed, { st with currentSession := none, strokeBuffer := [], isRecording := false })
  | _, _ => (none, st)

/-- The operation `startRecording`: implicitly stops a running recording (discarding the
returned session), installs the WebSocket patch if missing, and begins a new
empty session with `startTime = now` and a fresh id `sid`. -/
def startRecording (sid : String) (now : Nat) (st : RecorderState) :
    Session × RecorderState :=
  let st1 := if st.isRecording then (stopRecording now st).2 else st
  let st2 := { st1 with patched := true }
  let sess : Session := ⟨sid, now, 0, [], sessionMetadata⟩
  (sess, { st2 with currentSession := some sess, strokeBuffer := [], isRecording := true })

/-- The accessor `getStrokeCount`. -/
def getStrokeCount (st : RecorderState) : Nat := st.strokeBuffer.length

/-- The accessor `getCurrentSession`. -/
def getCurrentSession (st : RecorderState) : Option Session := st.currentSession

/-- One externally triggered Recorder operation. -/
inductive RecOp where
  | start : String → Nat → RecOp
  | stop : Nat → RecOp
  | send : WireData → Nat → RecOp
  | setCallback : Bool → RecOp

/-- State transition of one Recorder operation. -/
def recStep (st : RecorderState) : RecOp → RecorderState
  | RecOp.start sid now => (startRecording sid now st).2
  | RecOp.stop now => (stopRecording now st).2
  | RecOp.send d now => (interceptedSend st d now).2
  | RecOp.setCallback b => { st with hasCallback := b }

/-- The Recorder state after a sequence of operations from the initial state. -/
def recRun (ops : List RecOp) : RecorderState :=
  ops.foldl recStep recorderInit

/-! ## Player module (src/Modules/Timelapse/Player.js) -/

/-- One primitive rendered onto the canvas by `_drawPoint`: an isolated dot
(arc of radius `size/2` filled with the point's color) when no previous point
is supplied, or a line segment from the supplied previous point to the point.
The stroke attributes travel inside the points. -/
inductive RenderCmd where
  | dot : StrokePoint → RenderCmd
  | segment : StrokePoint → StrokePoint → RenderCmd

/-- The call `_drawPoint point prevPoint`. -/
def drawPoint (point : StrokePoint) (prevPoint : Option StrokePoint) : RenderCmd :=
  match prevPoint with
  | some pr => RenderCmd.segment pr point
  | none => RenderCmd.dot point

/-- The render loop shared by `_animationLoop` and `seek`: draw each point,
chaining it to the previous point of this run (`prevPoint` starts at `null`). -/
def renderChainAux (prevPoint : Option StrokePoint) : List StrokePoint → List RenderCmd
  | [] => []
  | p :: rest => drawPoint p prevPoint :: renderChainAux (some p) rest

/-- Rendering a run of points starting with no previous point. -/
def renderChain (points : List StrokePoint) : List RenderCmd :=
  renderChainAux none points

/-- The Player's mutable state.  The canvas is modelled by the list of
primitives rendered since the last clear (`surface`); its pixel size is
outside the rendering model. -/
structure PlayerState where
  session : Option Session
  surface : List RenderCmd
  hasSurface : Bool
  isPlaying : Bool
  isPaused : Bool
  currentStrokeIndex : Nat
  lastFrameTime : ℚ
  speed : ℚ
  loop : Bool
  scheduled : Bool

/-- Player state at module creation (default config: speed 50, no loop). -/
def playerInit : PlayerState :=
  ⟨none, [], false, false, false, 0, 0, 50, false, false⟩

/-- A state-change notification payload handed to the observer. -/
structure Notif where
  state : String
  progress : ℚ
  currentStroke : Nat
  totalStrokes : Nat

/-- The accessor `getProgress`: `cursor / strokeCount`, `0` without a (non-empty) session. -/
def getProgress (st : PlayerState) : ℚ :=
  match st.session with
  | none => 0
  | some sess =>
    if sess.strokes.length = 0 then 0
    else (st.currentStrokeIndex : ℚ) / (sess.strokes.length : ℚ)

/-- The `_notifyStateChange` payload built on the post-transition state. -/
def notifyStateChange (st : PlayerState) (state : String) : Notif :=
  { state := state, progress := getProgress st, currentStroke := st.currentStrokeIndex,
    totalStrokes := match st.session with | some sess => sess.strokes.length | none => 0 }

/-- The operation `loadSession`: rejects an empty session, otherwise installs it, resets the
cursor and lazily creates the canvas (sized from the coordinate extents —
sizing is outside this model). -/
def loadSession (sess : Session) (st : PlayerState) : Bool × PlayerState :=
  if sess.strokes.length = 0 then (false, st)
  else (true, { st with session := some sess, currentStrokeIndex := 0, hasSurface := true })

/-- The operation `setSpeed`: clamps to [1, 200]. -/
def setSpeed (speed : ℚ) (st : PlayerState) : PlayerState :=
  { st with speed := max 1 (min 200 speed) }

/-- The function `_calculateStrokesPerFrame`: batched mode for speed ≥ 100, interpolated
mode (1 stroke per 16 ms, scaled by `speed/50`, floored at 1) below. -/
def calculateStrokesPerFrame (speed : ℚ) (deltaTime : ℚ) : ℤ :=
  if 100 ≤ speed then ⌊(speed - 99) * 10⌋
  else max 1 ⌊1 / 16 * (speed / 50) * deltaTime⌋

/-- The operation `play`: no-op while already playing un-paused; otherwise enters Playing,
re-anchors the frame-timing reference to `now` and schedules a tick. -/
def play (now : ℚ) (st : PlayerState) : Bool × PlayerState × List Notif :=
  match st.session with
  | none => (false, st, [])
  | some _ =>
    if st.isPlaying = true ∧ st.isPaused = false then (false, st, [])
    else
      let st1 := { st with isPlaying := true, isPaused := false,
                           lastFrameTime := now, scheduled := true }
      (true, st1, [notifyStateChange st1 "playing"])

/-- The handler `_onComplete`: leaves Playing, cancels the scheduled tick, then either
restarts (loop) or emits the `completed` notification. -/
def onComplete (now : ℚ) (st : PlayerState) : PlayerState × List Notif :=
  let st1 := { st with isPlaying := false, isPaused := false, scheduled := false }
  if st.loop then
    let r := play now st1
    (r.2.1, r.2.2)
  else (st1, [notifyStateChange st1 "completed"])

/-- One call of `_animationLoop` at animation time `timestamp`: one frame tick.  Draws up
to `_calculateStrokesPerFrame` strokes, chaining them to each other but
starting the chain afresh (`prevPoint = null`) each tick, advances the cursor
and reschedules; completion is handled when the cursor has reached the end. -/
def animationLoop (timestamp : ℚ) (st : PlayerState) : PlayerState × List Notif :=
  if st.isPlaying = false ∨ st.isPaused = true then (st, [])
  else
    let deltaTime := timestamp - st.lastFrameTime
    let st1 := { st with lastFrameTime := timestamp }
    match st.session with
    | none => onComplete timestamp st1
    | some sess =>
      if sess.strokes.length ≤ st.currentStrokeIndex then onComplete timestamp st1
      else
        let strokesToDraw := calculateStrokesPerFrame st.speed deltaTime
        let k := min strokesToDraw.toNat (sess.strokes.length - st.currentStrokeIndex)
        let batch := renderChain ((sess.strokes.drop st.currentStrokeIndex).take k)
        ({ st1 with surface := st1.surface ++ batch,
                    currentStrokeIndex := st.currentStrokeIndex + k,
                    scheduled := true }, [])

/-- The operation `pause`: only from Playing; cancels the scheduled tick, keeps the cursor. -/
def pause (st : PlayerState) : Bool × PlayerState × List Notif :=
  if st.isPlaying = false ∨ st.isPaused = true then (false, st, [])
  else
    let st1 := { st with isPaused := true, scheduled := false }
    (true, st1, [notifyStateChange st1 "paused"])

/-- The operation `resume`: only from Paused; re-anchors the timing reference. -/
def resume (now : ℚ) (st : PlayerState) : Bool × PlayerState × List Notif :=
  if st.isPlaying = false ∨ st.isPaused = false then (false, st, [])
  else
    let st1 := { st with isPaused := false, lastFrameTime := now, scheduled := true }
    (true, st1, [notifyStateChange st1 "playing"])

/-- The operation `stop`: invalid unless `isPlaying` (Playing or Paused); cancels the tick,
resets the cursor, clears the canvas. -/
def stop (st : PlayerState) : Bool × PlayerState × List Notif :=
  if st.isPlaying = false then (false, st, [])
  else
    let st1 := { st with isPlaying := false, isPaused := false, scheduled := false,
                         currentStrokeIndex := 0, surface := [] }
    (true, st1, [notifyStateChange st1 "stopped"])

/-- The operation `seek`: clamps progress to [0,1], computes the target index with
`Math.floor`, clears the canvas, replays strokes `0 ≤ i < targetIndex`
chained exactly as the live loop does, and sets the cursor. -/
def seek (progress : ℚ) (st : PlayerState) : Bool × PlayerState × List Notif :=
  match st.session with
  | none => (false, st, [])
  | some sess =>
    let p := max 0 (min 1 progress)
    let targetIndex : Nat := (⌊p * (sess.strokes.length : ℚ)⌋).toNat
    let st1 := { st with surface := renderChain (sess.strokes.take targetIndex),
                         currentStrokeIndex := targetIndex }
    (true, st1, [notifyStateChange st1 "seeked"])

/-! ## Input/output module (src/Modules/Timelapse/IO.js) -/

/-- The export object built by `exportRecording` (file download, `Blob` and
`JSON.stringify` plumbing are outside this model — the claimed round trip is
between the built object and `importRecording`). -/
structure ExportData where
  version : String
  format : String
  sessionId : String
  sessionStartTime : ℚ
  sessionEndTime : ℚ
  sessionDuration : ℚ
  sessionStrokesCount : Nat
  strokes : List StrokePoint
  metadata : Json

/-- The operation `exportRecording`: the export object for a (non-null) session. -/
def exportRecording (session : Session) : ExportData :=
  { version := "1.0", format := "gartic-timelapse",
    sessionId := session.id,
    sessionStartTime := (session.startTime : ℚ),
    sessionEndTime := (session.endTime : ℚ),
    sessionDuration := (session.endTime : ℚ) - (session.startTime : ℚ),
    sessionStrokesCount := session.strokes.length,
    strokes := session.strokes,
    metadata := jsOr session.metadata (Json.obj []) }

/-- The session object `importRecording` resolves with. -/
structure ImportedSession where
  id : String
  startTime : ℚ
  endTime : ℚ
  strokes : List StrokePoint
  metadata : Json

/-- The operation `importRecording` applied to a parsed export object: each field goes
through `||`-defaulting (`data.session?.id || imported_now`,
`data.session?.startTime || 0`, `data.strokes || []`, `data.metadata || {}`).
On numbers `q || 0` is the identity, and a JS array is truthy even when
empty, so `strokes` is taken as is. -/
def importRecording (now : Nat) (data : ExportData) : ImportedSession :=
  { id := if data.sessionId = "" then "imported_" ++ toString now else data.sessionId,
    startTime := if data.sessionStartTime = 0 then 0 else data.sessionStartTime,
    endTime := if data.sessionEndTime = 0 then 0 else data.sessionEndTime,
    strokes := data.strokes,
    metadata := jsOr data.metadata (Json.obj []) }

/-- A concrete line stroke point at `(q, q)` with default brush values. -/
def cpt (q : ℚ) : StrokePoint :=
  ⟨"line", Json.num q, Json.num q, Json.null, Json.null, Json.num 5,
   Json.str "#000000", Json.num 100, 0, none⟩

/-- A two-stroke session for the playback chaining counterexample. -/
def sessTwo : Session := ⟨"s2", 0, 0, [cpt 1, cpt 2], Json.obj []⟩

/-- The invariant of C8: while recording, the live session object's `strokes`
array is empty. -/
def RecInv (st : RecorderState) : Prop :=
  ∀ sess, st.isRecording = true → st.currentSession = some sess → sess.strokes = []


/-! Projection lemmas pushing each `NormData` field through one
`applyIfPresent` line of `_normalizeDrawingData`. -/

lemma aip_x_x (o : Option Json) (n : NormData) :
    (applyIfPresent o (fun m v => { m with x := v }) n).x = o.getD n.x := by
  cases o <;> rfl

lemma aip_x_y (o : Option Json) (n : NormData) :
    (applyIfPresent o (fun m v => { m with y := v }) n).x = n.x := by
  cases o <;> rfl

lemma aip_x_prevX (o : Option Json) (n : NormData) :
    (applyIfPresent o (fun m v => { m with prevX := v }) n).x = n.x := by
  cases o <;> rfl

lemma aip_x_prevY (o : Option Json) (n : NormData) :
    (applyIfPresent o (fun m v => { m with prevY := v }) n).x = n.x := by
  cases o <;> rfl

lemma aip_x_size (o : Option Json) (n : NormData) :
    (applyIfPresent o (fun m v => { m with size := v }) n).x = n.x := by
  cases o <;> rfl

lemma aip_x_color (o : Option Json) (n : NormData) :
    (applyIfPresent o (fun m v => { m with color := v }) n).x = n.x := by
  cases o <;> rfl

lemma aip_y_x (o : Option Json) (n : NormData) :
    (applyIfPresent o (fun m v => { m with x := v }) n).y = n.y := by
  cases o <;> rfl

lemma aip_y_y (o : Option Json) (n : NormData) :
    (applyIfPresent o (fun m v => { m with y := v }) n).y = o.getD n.y := by
  cases o <;> rfl

lemma aip_y_prevX (o : Option Json) (n : NormData) :
    (applyIfPresent o (fun m v => { m with prevX := v }) n).y = n.y := by
  cases o <;> rfl

lemma aip_y_prevY (o : Option Json) (n : NormData) :
    (applyIfPresent o (fun m v => { m with prevY := v }) n).y = n.y := by
  cases o <;> rfl

lemma aip_y_size (o : Option Json) (n : NormData) :
    (applyIfPresent o (fun m v => { m with size := v }) n).y = n.y := by
  cases o <;> rfl

lemma aip_y_color (o : Option Json) (n : NormData) :
    (applyIfPresent o (fun m v => { m with color := v }) n).y = n.y := by
  cases o <;> rfl

lemma aip_prevX_x (o : Option Json) (n : NormData) :
    (applyIfPresent o (fun m v => { m with x := v }) n).prevX = n.prevX := by
  cases o <;> rfl

lemma aip_prevX_y (o : Option Json) (n : NormData) :
    (applyIfPresent o (fun m v => { m with y := v }) n).prevX = n.prevX := by
  cases o <;> rfl

lemma aip_prevX_prevX (o : Option Json) (n : NormData) :
    (applyIfPresent o (fun m v => { m with prevX := v }) n).prevX = o.getD n.prevX := by
  cases o <;> rfl

lemma aip_prevX_prevY (o : Option Json) (n : NormData) :
    (applyIfPresent o (fun m v => { m with prevY := v }) n).prevX = n.prevX := by
  cases o <;> rfl

lemma aip_prevX_size (o : Option Json) (n : NormData) :
    (applyIfPresent o (fun m v => { m with size := v }) n).prevX = n.prevX := by
  cases o <;> rfl

lemma aip_prevX_color (o : Option Json) (n : NormData) :
    (applyIfPresent o (fun m v => { m with color := v }) n).prevX = n.prevX := by
  cases o <;> rfl

lemma aip_prevY_x (o : Option Json) (n : NormData) :
    (applyIfPresent o (fun m v => { m with x := v }) n).prevY = n.prevY := by
  cases o <;> rfl

lemma aip_prevY_y (o : Option Json) (n : NormData) :
    (applyIfPresent o (fun m v => { m with y := v }) n).prevY = n.prevY := by
  cases o <;> rfl

lemma aip_prevY_prevX (o : Option Json) (n : NormData) :
    (applyIfPresent o (fun m v => { m with prevX := v }) n).prevY = n.prevY := by
  cases o <;> rfl

lemma aip_prevY_prevY (o : Option Json) (n : NormData) :
    (applyIfPresent o (fun m v => { m with prevY := v }) n).prevY = o.getD n.prevY := by
  cases o <;> rfl

lemma aip_prevY_size (o : Option Json) (n : NormData) :
    (applyIfPresent o (fun m v => { m with size := v }) n).prevY = n.prevY := by
  cases o <;> rfl

lemma aip_prevY_color (o : Option Json) (n : NormData) :
    (applyIfPresent o (fun m v => { m with color := v }) n).prevY = n.prevY := by
  cases o <;> rfl

lemma aip_size_x (o : Option Json) (n : NormData) :
    (applyIfPresent o (fun m v => { m with x := v }) n).size = n.size := by
  cases o <;> rfl

lemma aip_size_y (o : Option Json) (n : NormData) :
    (applyIfPresent o (fun m v => { m with y := v }) n).size = n.size := by
  cases o <;> rfl

lemma aip_size_prevX (o : Option Json) (n : NormData) :
    (applyIfPresent o (fun m v => { m with prevX := v }) n).size = n.size := by
  cases o <;> rfl

lemma aip_size_prevY (o : Option Json) (n : NormData) :
    (applyIfPresent o (fun m v => { m with prevY := v }) n).size = n.size := by
  cases o <;> rfl

lemma aip_size_size (o : Option Json) (n : NormData) :
    (applyIfPresent o (fun m v => { m with size := v }) n).size = o.getD n.size := by
  cases o <;> rfl

lemma aip_size_color (o : Option Json) (n : NormData) :
    (applyIfPresent o (fun m v => { m with color := v }) n).size = n.size := by
  cases o <;> rfl

lemma aip_color_x (o : Option Json) (n : NormData) :
    (applyIfPresent o (fun m v => { m with x := v }) n).color = n.color := by
  cases o <;> rfl

lemma aip_color_y (o : Option Json) (n : NormData) :
    (applyIfPresent o (fun m v => { m with y := v }) n).color = n.color := by
  cases o <;> rfl

lemma aip_color_prevX (o : Option Json) (n : NormData) :
    (applyIfPresent o (fun m v => { m with prevX := v }) n).color = n.color := by
  cases o <;> rfl

lemma aip_color_prevY (o : Option Json) (n : NormData) :
    (applyIfPresent o (fun m v => { m with prevY := v }) n).color = n.color := by
  cases o <;> rfl

lemma aip_color_size (o : Option Json) (n : NormData) :
    (applyIfPresent o (fun m v => { m with size := v }) n).color = n.color := by
  cases o <;> rfl

lemma aip_color_color (o : Option Json) (n : NormData) :
    (applyIfPresent o (fun m v => { m with color := v }) n).color = o.getD n.color := by
  cases o <;> rfl

lemma aip_opacity_x (o : Option Json) (n : NormData) :
    (applyIfPresent o (fun m v => { m with x := v }) n).opacity = n.opacity := by
  cases o <;> rfl

lemma aip_opacity_y (o : Option Json) (n : NormData) :
    (applyIfPresent o (fun m v => { m with y := v }) n).opacity = n.opacity := by
  cases o <;> rfl

lemma aip_opacity_prevX (o : Option Json) (n : NormData) :
    (applyIfPresent o (fun m v => { m with prevX := v }) n).opacity = n.opacity := by
  cases o <;> rfl

lemma aip_opacity_prevY (o : Option Json) (n : NormData) :
    (applyIfPresent o (fun m v => { m with prevY := v }) n).opacity = n.opacity := by
  cases o <;> rfl

lemma aip_opacity_size (o : Option Json) (n : NormData) :
    (applyIfPresent o (fun m v => { m with size := v }) n).opacity = n.opacity := by
  cases o <;> rfl

lemma aip_opacity_color (o : Option Json) (n : NormData) :
    (applyIfPresent o (fun m v => { m with color := v }) n).opacity = n.opacity := by
  cases o <;> rfl

lemma aip_x_op (o : Option Json) (n : NormData) :
    (applyIfPresent o (fun m v => { m with opacity := mul100 v }) n).x = n.x := by
  cases o <;> rfl

lemma aip_y_op (o : Option Json) (n : NormData) :
    (applyIfPresent o (fun m v => { m with opacity := mul100 v }) n).y = n.y := by
  cases o <;> rfl

lemma aip_prevX_op (o : Option Json) (n : NormData) :
    (applyIfPresent o (fun m v => { m with opacity := mul100 v }) n).prevX = n.prevX := by
  cases o <;> rfl

lemma aip_prevY_op (o : Option Json) (n : NormData) :
    (applyIfPresent o (fun m v => { m with opacity := mul100 v }) n).prevY = n.prevY := by
  cases o <;> rfl

lemma aip_size_op (o : Option Json) (n : NormData) :
    (applyIfPresent o (fun m v => { m with opacity := mul100 v }) n).size = n.size := by
  cases o <;> rfl

lemma aip_color_op (o : Option Json) (n : NormData) :
    (applyIfPresent o (fun m v => { m with opacity := mul100 v }) n).color = n.color := by
  cases o <;> rfl

lemma aip_opacity_op (o : Option Json) (n : NormData) :
    (applyIfPresent o (fun m v => { m with opacity := mul100 v }) n).opacity =
      (o.map mul100).getD n.opacity := by
  cases o <;> rfl

lemma normIf_x (c : Prop) [Decidable c] (et : String) (n : NormData) :
    (if c then { n with action := some et } else n).x = n.x := by
  split <;> rfl

lemma normIf_y (c : Prop) [Decidable c] (et : String) (n : NormData) :
    (if c then { n with action := some et } else n).y = n.y := by
  split <;> rfl

lemma normIf_prevX (c : Prop) [Decidable c] (et : String) (n : NormData) :
    (if c then { n with action := some et } else n).prevX = n.prevX := by
  split <;> rfl

lemma normIf_prevY (c : Prop) [Decidable c] (et : String) (n : NormData) :
    (if c then { n with action := some et } else n).prevY = n.prevY := by
  split <;> rfl

lemma normIf_size (c : Prop) [Decidable c] (et : String) (n : NormData) :
    (if c then { n with action := some et } else n).size = n.size := by
  split <;> rfl

lemma normIf_color (c : Prop) [Decidable c] (et : String) (n : NormData) :
    (if c then { n with action := some et } else n).color = n.color := by
  split <;> rfl

lemma normIf_opacity (c : Prop) [Decidable c] (et : String) (n : NormData) :
    (if c then { n with action := some et } else n).opacity = n.opacity := by
  split <;> rfl

/-- Field-wise value of `_normalizeDrawingData`: `x` is the present value or
the default `0`. -/
lemma norm_x (et : String) (raw : Json) :
    (normalizeDrawingData et raw).x = (jget raw "x").getD (Json.num 0) := by
  simp only [normalizeDrawingData, apply_ite NormData.x, ite_self, aip_x_op, aip_x_color, aip_x_size, aip_x_prevY,
    aip_x_prevX, aip_x_y, aip_x_x]

/-- Field-wise value of `_normalizeDrawingData`: `y`. -/
lemma norm_y (et : String) (raw : Json) :
    (normalizeDrawingData et raw).y = (jget raw "y").getD (Json.num 0) := by
  simp only [normalizeDrawingData, apply_ite NormData.y, ite_self, aip_y_op, aip_y_color, aip_y_size, aip_y_prevY,
    aip_y_prevX, aip_y_y, aip_y_x]

/-- Field-wise value of `_normalizeDrawingData`: `prevX` — `px` overrides
`prevX` when both are present (the later line wins). -/
lemma norm_prevX (et : String) (raw : Json) :
    (normalizeDrawingData et raw).prevX =
      (jget raw "px").getD ((jget raw "prevX").getD Json.null) := by
  simp only [normalizeDrawingData, apply_ite NormData.prevX, ite_self, aip_prevX_op, aip_prevX_color, aip_prevX_size,
    aip_prevX_prevY, aip_prevX_prevX, aip_prevX_y, aip_prevX_x]

/-- Field-wise value of `_normalizeDrawingData`: `prevY` — `py` overrides
`prevY`. -/
lemma norm_prevY (et : String) (raw : Json) :
    (normalizeDrawingData et raw).prevY =
      (jget raw "py").getD ((jget raw "prevY").getD Json.null) := by
  simp only [normalizeDrawingData, apply_ite NormData.prevY, ite_self, aip_prevY_op, aip_prevY_color, aip_prevY_size,
    aip_prevY_prevY, aip_prevY_prevX, aip_prevY_y, aip_prevY_x]

/-- Field-wise value of `_normalizeDrawingData`: `size` — `thickness` over
`width` over `size`, default `5`. -/
lemma norm_size (et : String) (raw : Json) :
    (normalizeDrawingData et raw).size =
      (jget raw "thickness").getD ((jget raw "width").getD ((jget raw "size").getD (Json.num 5))) := by
  simp only [normalizeDrawingData, apply_ite NormData.size, ite_self, aip_size_op, aip_size_color, aip_size_size,
    aip_size_prevY, aip_size_prevX, aip_size_y, aip_size_x]

/-- Field-wise value of `_normalizeDrawingData`: `color` — `c` over `color`,
default `#000000`. -/
lemma norm_color (et : String) (raw : Json) :
    (normalizeDrawingData et raw).color =
      (jget raw "c").getD ((jget raw "color").getD (Json.str "#000000")) := by
  simp only [normalizeDrawingData, apply_ite NormData.color, ite_self, aip_color_op, aip_color_color, aip_color_size,
    aip_color_prevY, aip_color_prevX, aip_color_y, aip_color_x]

/-- Field-wise value of `_normalizeDrawingData`: `opacity` — `a` over `alpha`
over `opacity`, each scaled by 100 when present, default `100`. -/
lemma norm_opacity (et : String) (raw : Json) :
    (normalizeDrawingData et raw).opacity =
      ((jget raw "a").map mul100).getD (((jget raw "alpha").map mul100).getD
        (((jget raw "opacity").map mul100).getD (Json.num 100))) := by
  simp only [normalizeDrawingData, apply_ite NormData.opacity, ite_self, aip_opacity_op, aip_opacity_color,
    aip_opacity_size, aip_opacity_prevY, aip_opacity_prevX, aip_opacity_y, aip_opacity_x]

/-- The composite `_convertToStrokePoint` after `_normalizeDrawingData`, on a non-control
event: every field goes through `||`, so a falsy normalized value (0, empty
string, null/NaN) falls back to the conversion default. -/
lemma convertToStrokePoint_line (name : String) (raw : Json) (now : Nat)
    (h : ¬(name = "clear" ∨ name = "undo")) :
    convertToStrokePoint ⟨name, normalizeDrawingData name raw, now⟩ =
      { type := "line",
        x := jsOr ((jget raw "x").getD (Json.num 0)) (Json.num 0),
        y := jsOr ((jget raw "y").getD (Json.num 0)) (Json.num 0),
        prevX := jsOr ((jget raw "px").getD ((jget raw "prevX").getD Json.null)) Json.null,
        prevY := jsOr ((jget raw "py").getD ((jget raw "prevY").getD Json.null)) Json.null,
        size := jsOr ((jget raw "thickness").getD ((jget raw "width").getD
          ((jget raw "size").getD (Json.num 5)))) (Json.num 5),
        color := jsOr ((jget raw "c").getD ((jget raw "color").getD
          (Json.str "#000000"))) (Json.str "#000000"),
        opacity := jsOr (((jget raw "a").map mul100).getD (((jget raw "alpha").map mul100).getD
          (((jget raw "opacity").map mul100).getD (Json.num 100)))) (Json.num 100),
        time := now, action := none } := by
  simp only [convertToStrokePoint, if_neg h]
  simp only [norm_x, norm_y, norm_prevX, norm_prevY, norm_size, norm_color, norm_opacity]

/-- C1, counterexample: the frame `42["draw",{"x":10,"y":20,"alpha":0}]`
carries a present `alpha` of `0`, so the claim predicts a buffered opacity of
`0 * 100 = 0`; the pipeline (protocol parse followed by the Recorder's stroke
conversion) actually buffers opacity `100`, because `_convertToStrokePoint`
re-defaults falsy normalized values through `||`. -/
theorem decode_zero_alpha_counterexample :
    recorderCapture 0 "42[\"draw\",\x7b\"x\":10,\"y\":20,\"alpha\":0\x7d]" =
      some ⟨"line", Json.num 10, Json.num 20, Json.null, Json.null, Json.num 5,
        Json.str "#000000", Json.num 100, 0, none⟩ ∧
    (100 : ℚ) ≠ 0 * 100 := by
  constructor
  · have h1 : protocolParse 0 "42[\"draw\",\x7b\"x\":10,\"y\":20,\"alpha\":0\x7d]" =
        some ⟨"draw", ⟨"draw", Json.num 10, Json.num 20, Json.num 5, Json.str "#000000",
          Json.num ((0:ℚ) * 100), Json.null, Json.null, none⟩, 0⟩ := rfl
    have h2 : (0:ℚ) * 100 = 0 := by norm_num
    rw [h2] at h1
    rw [recorderCapture, h1]
    rfl
  · norm_num

/-- C1, amended: for a non-control whitelisted event the composite pipeline
yields `x`,`y` taken directly (absent ⇒ 0); `prevX` from `px` if present else
`prevX` else null; `prevY` likewise from `py` else `prevY`; `size` from the
last-listed present alias of `size`/`width`/`thickness`, default 5; `color`
from `c` else `color`, default `#000000`; `opacity` from the last-listed
present alias of `opacity`/`alpha`/`a` times 100, else 100 — except that a
falsy normalized value (0, or the empty string for `color`) is replaced by
the conversion default through `||` (`jsOr`).  The second conjunct factors
any decoded frame through this shape. -/
theorem decode_convert_amended (name : String) (raw : Json) (now : Nat)
    (hname : name = "draw" ∨ name = "line" ∨ name = "stroke" ∨ name = "path") :
    (convertToStrokePoint ⟨name, normalizeDrawingData name raw, now⟩ =
      { type := "line",
        x := jsOr ((jget raw "x").getD (Json.num 0)) (Json.num 0),
        y := jsOr ((jget raw "y").getD (Json.num 0)) (Json.num 0),
        prevX := jsOr ((jget raw "px").getD ((jget raw "prevX").getD Json.null)) Json.null,
        prevY := jsOr ((jget raw "py").getD ((jget raw "prevY").getD Json.null)) Json.null,
        size := jsOr ((jget raw "thickness").getD ((jget raw "width").getD
          ((jget raw "size").getD (Json.num 5)))) (Json.num 5),
        color := jsOr ((jget raw "c").getD ((jget raw "color").getD
          (Json.str "#000000"))) (Json.str "#000000"),
        opacity := jsOr (((jget raw "a").map mul100).getD (((jget raw "alpha").map mul100).getD
          (((jget raw "opacity").map mul100).getD (Json.num 100)))) (Json.num 100),
        time := now, action := none }) ∧
    (∀ q : ℚ, jget raw "x" = some (Json.num q) →
      (convertToStrokePoint ⟨name, normalizeDrawingData name raw, now⟩).x = Json.num q) ∧
    (∀ q : ℚ, jget raw "a" = some (Json.num q) → q ≠ 0 →
      (convertToStrokePoint ⟨name, normalizeDrawingData name raw, now⟩).opacity =
        Json.num (q * 100)) ∧
    (jget raw "a" = some (Json.num 0) →
      (convertToStrokePoint ⟨name, normalizeDrawingData name raw, now⟩).opacity =
        Json.num 100) ∧
    (∀ s pkt args, parseSocketPacket s = some pkt → pkt.type = 2 →
      pkt.data = PacketData.json (Json.arr (Json.str name :: raw :: args)) →
      jsFalsy raw = false →
      recorderCapture now s =
        some (convertToStrokePoint ⟨name, normalizeDrawingData name raw, now⟩)) := by
  have hnc : ¬(name = "clear" ∨ name = "undo") := by
    rcases hname with rfl | rfl | rfl | rfl <;> simp
  have hmain := convertToStrokePoint_line name raw now hnc
  refine ⟨hmain, ?_, ?_, ?_, ?_⟩
  · intro q hq
    rw [hmain]
    by_cases h0 : q = 0
    · subst h0; simp [hq, jsOr, jsFalsy]
    · simp [hq, jsOr, jsFalsy, h0]
  · intro q hq hq0
    rw [hmain]
    simp [hq, jsOr, jsFalsy, mul100, hq0]
  · intro hq
    rw [hmain]
    simp [hq, jsOr, jsFalsy, mul100]
  · intro s pkt args hparse htype hdata hfalsy
    rw [recorderCapture, protocolParse, hparse, Option.some_bind]
    have hde : isDrawingEvent pkt = true := by
      rcases pkt with ⟨pt, pn, pd, pid⟩
      simp only at htype hdata
      subst htype hdata
      rcases hname with rfl | rfl | rfl | rfl <;> rfl
    rw [extractDrawingData, if_pos hde, hdata]
    simp only [hfalsy, Bool.false_eq_true, if_false, convertToStrokePointOpt]

/-- C1 witness: a concrete frame run end-to-end through the amended shape. -/
theorem decode_convert_amended_witness :
    recorderCapture 3 "42[\"draw\",\x7b\"x\":7\x7d]" =
      some (convertToStrokePoint ⟨"draw",
        normalizeDrawingData "draw" (Json.obj [("x", Json.num 7)]), 3⟩) ∧
    (convertToStrokePoint ⟨"draw",
      normalizeDrawingData "draw" (Json.obj [("x", Json.num 7)]), 3⟩).x = Json.num 7 :=
  ⟨(decode_convert_amended "draw" (Json.obj [("x", Json.num 7)]) 3 (Or.inl rfl)).2.2.2.2
      "42[\"draw\",\x7b\"x\":7\x7d]"
      ⟨2, "/", PacketData.json (Json.arr [Json.str "draw", Json.obj [("x", Json.num 7)]]), none⟩
      [] rfl rfl rfl rfl,
   (decode_convert_amended "draw" (Json.obj [("x", Json.num 7)]) 3 (Or.inl rfl)).2.1 7 rfl⟩

/-- C7: the protocol decode is total (`none` models every caught failure);
a frame whose leading transport-tag digit is not `4` decodes to `none`,
and whenever decode succeeds the packet was an EVENT (type 2) whose payload
is a non-empty array headed by a whitelisted event-name string — so any
non-array payload, empty array, or non-whitelisted first element yields
`none`. -/
theorem protocol_parse_null_conditions :
    (∀ (now : Nat) (c : Char) (r : List Char), isDigitChar c = true → digitVal c ≠ 4 →
      protocolParse now (String.mk (c :: r)) = none) ∧
    (∀ (now : Nat) (s : String) (ev : DrawingEvent), protocolParse now s = some ev →
      ∃ pkt args, parseSocketPacket s = some pkt ∧ pkt.type = 2 ∧
        pkt.data = PacketData.json (Json.arr (Json.str ev.type :: args)) ∧
        ev.type ∈ DRAWING_EVENTS) := by
  constructor
  · intro now c r hdig h4
    rw [protocolParse, parseSocketPacket]
    simp only [String.data]
    rw [if_pos hdig, if_neg h4]
    rfl
  · intro now s ev h
    rw [protocolParse] at h
    cases hp : parseSocketPacket s with
    | none => rw [hp] at h; simp at h
    | some pkt =>
      rw [hp, Option.some_bind, extractDrawingData] at h
      by_cases hde : isDrawingEvent pkt = true
      · rw [if_pos hde] at h
        rcases pkt with ⟨pt, pn, pd, pid⟩
        cases pd with
        | raw str => simp [isDrawingEvent] at hde
        | json j =>
          cases j with
          | arr xs =>
            cases xs with
            | nil => rcases pt with _ | _ | _ | pt' <;> simp [isDrawingEvent] at hde
            | cons hd tl =>
              rcases pt with _ | _ | _ | pt'
              · cases hd <;> simp [isDrawingEvent] at hde
              · cases hd <;> simp [isDrawingEvent] at hde
              · cases hd with
                | str nm =>
                  simp only [Option.some_inj] at h
                  refine ⟨_, tl, rfl, rfl, ?_, ?_⟩
                  · rw [← h]
                  · rw [← h]
                    simpa [isDrawingEvent] using hde
                | null => simp [isDrawingEvent] at hde
                | bool b => simp [isDrawingEvent] at hde
                | num q => simp [isDrawingEvent] at hde
                | arr ys => simp [isDrawingEvent] at hde
                | obj kvs => simp [isDrawingEvent] at hde
              · cases hd <;> simp [isDrawingEvent] at hde
          | null => rcases pt with _ | _ | _ | pt' <;> simp [isDrawingEvent] at hde
          | bool b => rcases pt with _ | _ | _ | pt' <;> simp [isDrawingEvent] at hde
          | num q => rcases pt with _ | _ | _ | pt' <;> simp [isDrawingEvent] at hde
          | str st => rcases pt with _ | _ | _ | pt' <;> simp [isDrawingEvent] at hde
          | obj kvs => rcases pt with _ | _ | _ | pt' <;> simp [isDrawingEvent] at hde
      · rw [if_neg hde] at h
        simp at h

/-- C5: `_interceptedSend` hands exactly the received frame — unmodified,
never dropped or duplicated — to the original `WebSocket.prototype.send`, and
does so as its first externally visible effect, in every recorder state, for
textual and binary frames alike, whatever the decode outcome (decoding is
total here: every failure the source catches is a `none`). -/
theorem interception_transparent :
    ∀ (st : RecorderState) (d : WireData) (now : Nat),
      forwards (interceptedSend st d now).1 = [d] ∧
      (interceptedSend st d now).1.head? = some (TraceEv.forward d) := by
  intro st d now
  rcases st with ⟨rec, cs, buf, pat, cb⟩
  cases rec
  · exact ⟨rfl, rfl⟩
  · cases cs with
    | none => exact ⟨rfl, rfl⟩
    | some sess =>
      cases d with
      | binary => exact ⟨rfl, rfl⟩
      | text s =>
        cases h : convertToStrokePointOpt (protocolParse now s) with
        | none => simp [interceptedSend, h, forwards]
        | some pt => cases cb <;> simp [interceptedSend, h, forwards]

/-- C10: `stop()` on a Player that is not Playing and not Paused (`isPlaying`
false, which also holds right after natural completion without loop) returns
`false`, leaves the whole state — in particular the cursor and
`getProgress()` — untouched, and emits no state-change notification. -/
theorem stop_idle_noop (st : PlayerState) (h : st.isPlaying = false) :
    stop st = (false, st, []) ∧
    getProgress (stop st).2.1 = getProgress st ∧
    (∀ (now : ℚ) (st2 : PlayerState), st2.loop = false →
      (onComplete now st2).1.isPlaying = false ∧ (stop (onComplete now st2).1).1 = false) := by
  have h1 : stop st = (false, st, []) := by rw [stop, if_pos h]
  refine ⟨h1, by rw [h1], ?_⟩
  intro now st2 hl
  constructor
  · simp [onComplete, hl]
  · simp [onComplete, hl, stop]

/-- C10 witness. -/
theorem stop_idle_noop_witness : stop playerInit = (false, playerInit, []) :=
  (stop_idle_noop playerInit rfl).1

/-- Every tick's stroke budget is at least one, whatever the speed and
elapsed time. -/
lemma calculateStrokesPerFrame_pos (speed dt : ℚ) :
    1 ≤ calculateStrokesPerFrame speed dt := by
  rw [calculateStrokesPerFrame]
  split
  · next h100 =>
    have h10 : (10:ℤ) ≤ ⌊(speed - 99) * 10⌋ := Int.le_floor.mpr (by push_cast; linarith)
    omega
  · exact le_max_left _ _

/-- C3: with the speed clamped to [1,200] by `setSpeed`, the per-tick stroke
budget of `_calculateStrokesPerFrame` is `⌊(speed − 99) · 10⌋` independent of
elapsed time for speed ≥ 100, and `max 1 ⌊(1/16) · (speed/50) · Δt⌋` for
speed ≤ 99; in particular speed 100 gives exactly 10, speed 99 at Δt = 16 ms
gives exactly 1, and the budget is at least 1 for every speed and Δt. -/
theorem strokes_per_tick_formula (st : PlayerState) (s dt : ℚ) :
    ((setSpeed s st).speed = max 1 (min 200 s)) ∧
    (100 ≤ max 1 (min 200 s) →
      calculateStrokesPerFrame (setSpeed s st).speed dt = ⌊(max 1 (min 200 s) - 99) * 10⌋) ∧
    (max 1 (min 200 s) ≤ 99 →
      calculateStrokesPerFrame (setSpeed s st).speed dt =
        max 1 ⌊1 / 16 * (max 1 (min 200 s) / 50) * dt⌋) ∧
    calculateStrokesPerFrame (setSpeed 100 st).speed dt = 10 ∧
    calculateStrokesPerFrame (setSpeed 99 st).speed 16 = 1 ∧
    1 ≤ calculateStrokesPerFrame (setSpeed s st).speed dt := by
  have hsp : (setSpeed s st).speed = max 1 (min 200 s) := rfl
  refine ⟨hsp, ?_, ?_, ?_, ?_, calculateStrokesPerFrame_pos _ _⟩
  · intro h100
    rw [hsp, calculateStrokesPerFrame, if_pos h100]
  · intro h99
    rw [hsp, calculateStrokesPerFrame, if_neg (by intro hc; linarith)]
  · have hs100 : (setSpeed (100:ℚ) st).speed = 100 := by
      rw [setSpeed]
      norm_num
    rw [hs100, calculateStrokesPerFrame, if_pos (le_refl _)]
    norm_num
  · have hs99 : (setSpeed (99:ℚ) st).speed = 99 := by
      rw [setSpeed]
      norm_num
    rw [hs99, calculateStrokesPerFrame, if_neg (by norm_num)]
    norm_num

/-- C3 witness. -/
theorem strokes_per_tick_formula_witness :
    calculateStrokesPerFrame (setSpeed 150 playerInit).speed 7 =
      ⌊(max 1 (min 200 (150:ℚ)) - 99) * 10⌋ ∧
    calculateStrokesPerFrame (setSpeed 40 playerInit).speed 16 =
      max 1 ⌊1 / 16 * (max 1 (min 200 (40:ℚ)) / 50) * 16⌋ ∧
    calculateStrokesPerFrame (setSpeed 100 playerInit).speed 3 = 10 :=
  ⟨(strokes_per_tick_formula playerInit 150 7).2.1 (by norm_num),
   (strokes_per_tick_formula playerInit 40 16).2.2.1 (by norm_num),
   (strokes_per_tick_formula playerInit 100 3).2.2.2.1⟩

/-- C4: `seek` clamps the progress to [0,1], computes
`targetIndex = ⌊progress · strokeCount⌋`, clears the surface and re-renders
exactly strokes `0 … targetIndex − 1` chained as one run, sets the cursor to
`targetIndex`, and does all of this independently of the current cursor (so
forward and backward seeks behave identically); `seek 0` leaves the surface
empty with cursor 0, `seek 1` renders all strokes, and `seek (1/2)` of a
10-stroke session sets the cursor to 5. -/
theorem seek_spec (st : PlayerState) (sess : Session) (p : ℚ) (h : st.session = some sess) :
    (seek p st).1 = true ∧
    (seek p st).2.1.currentStrokeIndex =
      (⌊max 0 (min 1 p) * (sess.strokes.length : ℚ)⌋).toNat ∧
    (seek p st).2.1.surface =
      renderChain (sess.strokes.take (⌊max 0 (min 1 p) * (sess.strokes.length : ℚ)⌋).toNat) ∧
    (0 ≤ p → p ≤ 1 →
      ⌊max 0 (min 1 p) * (sess.strokes.length : ℚ)⌋ = ⌊p * (sess.strokes.length : ℚ)⌋) ∧
    (p ≤ 0 → (seek p st).2.1.currentStrokeIndex = 0 ∧ (seek p st).2.1.surface = []) ∧
    (1 ≤ p → (seek p st).2.1.currentStrokeIndex = sess.strokes.length ∧
      (seek p st).2.1.surface = renderChain sess.strokes) ∧
    (sess.strokes.length = 10 → p = 1 / 2 → (seek p st).2.1.currentStrokeIndex = 5) ∧
    (∀ j : Nat,
      (seek p { st with currentStrokeIndex := j }).2.1.surface = (seek p st).2.1.surface ∧
      (seek p { st with currentStrokeIndex := j }).2.1.currentStrokeIndex =
        (seek p st).2.1.currentStrokeIndex) := by
  have hclamp0 : p ≤ 0 → max 0 (min 1 p) = 0 := fun hp =>
    max_eq_left (le_trans (min_le_right 1 p) hp)
  have hclamp1 : 1 ≤ p → max 0 (min 1 p) = 1 := fun hp => by
    rw [min_eq_left hp]
    exact max_eq_right zero_le_one
  refine ⟨?_, ?_, ?_, ?_, ?_, ?_, ?_, ?_⟩
  · simp [seek, h]
  · simp [seek, h]
  · simp [seek, h]
  · intro hp0 hp1
    rw [min_eq_right hp1, max_eq_right hp0]
  · intro hp
    constructor
    · simp [seek, h, hclamp0 hp]
    · simp [seek, h, hclamp0 hp, renderChain, renderChainAux]
  · intro hp
    constructor
    · simp [seek, h, hclamp1 hp]
    · simp [seek, h, hclamp1 hp]
  · intro hn hp
    have h5 : (⌊max 0 (min 1 p) * (sess.strokes.length : ℚ)⌋).toNat = 5 := by
      subst hp
      rw [hn]
      norm_num
      decide
    simp [seek, h, h5]
  · intro j
    constructor
    · simp [seek, h]
    · simp [seek, h]

/-- C4 witness: a concrete two-stroke session sought to the halfway point. -/
theorem seek_spec_witness :
    (seek (1/2) ⟨some ⟨"w4", 0, 0,
        [⟨"line", Json.num 1, Json.num 1, Json.null, Json.null, Json.num 5,
          Json.str "#000000", Json.num 100, 0, none⟩,
         ⟨"line", Json.num 2, Json.num 2, Json.null, Json.null, Json.num 5,
          Json.str "#000000", Json.num 100, 0, none⟩], Json.obj []⟩,
      [], true, false, false, 0, 0, 50, false, false⟩).1 = true :=
  (seek_spec _ _ (1/2) rfl).1

/-- C2, counterexample: load a two-stroke session, play at the default
speed 50, and run two ticks 5 ms apart (each tick's budget is
`max 1 ⌊(1/16)·(50/50)·5⌋ = 1` stroke).  The second stroke is rendered as an
isolated dot — not as a line segment chained to the first stroke — because
`_animationLoop` resets `prevPoint` to `null` at the start of every tick; so
a stroke other than the very first one is rendered as a dot. -/
theorem play_tick_chain_counterexample :
    ((animationLoop 10 ((animationLoop 5
        ((play 0 ((loadSession sessTwo playerInit).2)).2.1)).1)).1).surface =
      [RenderCmd.dot (cpt 1), RenderCmd.dot (cpt 2)] ∧
    RenderCmd.dot (cpt 2) ≠ RenderCmd.segment (cpt 1) (cpt 2) := by
  have h0 : (loadSession sessTwo playerInit).2 =
      ⟨some sessTwo, [], true, false, false, 0, 0, 50, false, false⟩ := by
    rw [loadSession]
    norm_num [sessTwo, playerInit]
  have h1 : (play 0 (⟨some sessTwo, [], true, false, false, 0, 0, 50, false, false⟩ :
      PlayerState)).2.1 =
      ⟨some sessTwo, [], true, true, false, 0, 0, 50, false, true⟩ := by
    rw [play]
    norm_num
  have h2 : animationLoop 5 (⟨some sessTwo, [], true, true, false, 0, 0, 50, false, true⟩ :
      PlayerState) =
      (⟨some sessTwo, [RenderCmd.dot (cpt 1)], true, true, false, 1, 5, 50, false, true⟩, []) := by
    rw [animationLoop]
    norm_num [calculateStrokesPerFrame, sessTwo, renderChain, renderChainAux, drawPoint]
  have h3 : animationLoop 10 (⟨some sessTwo, [RenderCmd.dot (cpt 1)], true, true, false,
      1, 5, 50, false, true⟩ : PlayerState) =
      (⟨some sessTwo, [RenderCmd.dot (cpt 1), RenderCmd.dot (cpt 2)], true, true, false,
        2, 10, 50, false, true⟩, []) := by
    rw [animationLoop]
    norm_num [calculateStrokesPerFrame, sessTwo, renderChain, renderChainAux, drawPoint]
  rw [h0, h1, h2]
  rw [h3]
  exact ⟨rfl, fun hct => by cases hct⟩

/-- C2, amended: during `play()` each tick renders its batch as one chained
run — the first stroke drawn in the tick is an isolated dot (`prevPoint`
starts at `null` every tick), and each further stroke of the same tick is a
line segment chained to its predecessor.  Chaining therefore never crosses a
tick boundary; the batch size is the per-tick budget capped by the remaining
strokes, and the cursor advances by exactly that amount. -/
theorem play_tick_chain_amended (st : PlayerState) (sess : Session) (ts : ℚ)
    (hp : st.isPlaying = true) (hpa : st.isPaused = false)
    (hs : st.session = some sess) (hi : st.currentStrokeIndex < sess.strokes.length) :
    1 ≤ min (calculateStrokesPerFrame st.speed (ts - st.lastFrameTime)).toNat
        (sess.strokes.length - st.currentStrokeIndex) ∧
    (animationLoop ts st).1.surface =
      st.surface ++ RenderCmd.dot sess.strokes[st.currentStrokeIndex] ::
        renderChainAux (some sess.strokes[st.currentStrokeIndex])
          ((sess.strokes.drop (st.currentStrokeIndex + 1)).take
            (min (calculateStrokesPerFrame st.speed (ts - st.lastFrameTime)).toNat
              (sess.strokes.length - st.currentStrokeIndex) - 1)) ∧
    (animationLoop ts st).1.currentStrokeIndex = st.currentStrokeIndex +
      min (calculateStrokesPerFrame st.speed (ts - st.lastFrameTime)).toNat
        (sess.strokes.length - st.currentStrokeIndex) := by
  have hpos := calculateStrokesPerFrame_pos st.speed (ts - st.lastFrameTime)
  have hk1 : 1 ≤ min (calculateStrokesPerFrame st.speed (ts - st.lastFrameTime)).toNat
      (sess.strokes.length - st.currentStrokeIndex) := by
    omega
  have hbatch : renderChain ((sess.strokes.drop st.currentStrokeIndex).take
      (min (calculateStrokesPerFrame st.speed (ts - st.lastFrameTime)).toNat
        (sess.strokes.length - st.currentStrokeIndex))) =
      RenderCmd.dot sess.strokes[st.currentStrokeIndex] ::
        renderChainAux (some sess.strokes[st.currentStrokeIndex])
          ((sess.strokes.drop (st.currentStrokeIndex + 1)).take
            (min (calculateStrokesPerFrame st.speed (ts - st.lastFrameTime)).toNat
              (sess.strokes.length - st.currentStrokeIndex) - 1)) := by
    rw [List.drop_eq_getElem_cons hi]
    rw [show min (calculateStrokesPerFrame st.speed (ts - st.lastFrameTime)).toNat
        (sess.strokes.length - st.currentStrokeIndex) =
      (min (calculateStrokesPerFrame st.speed (ts - st.lastFrameTime)).toNat
        (sess.strokes.length - st.currentStrokeIndex) - 1) + 1 from by omega]
    rw [List.take_succ_cons]
    rfl
  refine ⟨hk1, ?_, ?_⟩
  · rw [animationLoop, if_neg (by rw [hp, hpa]; simp)]
    simp only [hs]
    rw [if_neg (Nat.not_le.mpr hi)]
    simp only [hbatch]
  · rw [animationLoop, if_neg (by rw [hp, hpa]; simp)]
    simp only [hs]
    rw [if_neg (Nat.not_le.mpr hi)]

/-- C2 witness: the first tick on a freshly started two-stroke session draws
stroke 0 as a dot. -/
theorem play_tick_chain_amended_witness :
    (animationLoop 5 (⟨some sessTwo, [], true, true, false, 0, 0, 50, false, true⟩ :
        PlayerState)).1.surface =
      [] ++ RenderCmd.dot (sessTwo.strokes.get ⟨0, by norm_num [sessTwo]⟩) ::
        renderChainAux (some (sessTwo.strokes.get ⟨0, by norm_num [sessTwo]⟩))
          ((sessTwo.strokes.drop 1).take
            (min (calculateStrokesPerFrame (50:ℚ) ((5:ℚ) - 0)).toNat
              (sessTwo.strokes.length - 0) - 1)) :=
  (play_tick_chain_amended ⟨some sessTwo, [], true, true, false, 0, 0, 50, false, true⟩
    sessTwo 5 rfl rfl rfl (by norm_num [sessTwo])).2.1

/-- C6: `stopRecording` finalizes the running session — `endTime` is the stop
time, `strokes` is exactly the capture buffer in capture order, and
`endTime ≥ startTime` whenever the clock did not run backwards; with no
active recording it returns `null`.  The last conjunct runs the concrete
scenario: start, two well-formed draw frames through the interception, stop —
the returned session has exactly 2 strokes and `endTime ≥ startTime`. -/
theorem recording_lifecycle :
    (∀ (st : RecorderState) (now : Nat) (sess : Session), st.isRecording = true →
      st.currentSession = some sess → sess.startTime ≤ now →
      ∃ fin, (stopRecording now st).1 = some fin ∧ fin.strokes = st.strokeBuffer ∧
        fin.startTime = sess.startTime ∧ fin.endTime = now ∧ fin.startTime ≤ fin.endTime) ∧
    (∀ (st : RecorderState) (now : Nat), st.isRecording = false →
      (stopRecording now st).1 = none) ∧
    (∀ (sid : String) (n0 n1 n2 n3 : Nat), n0 ≤ n3 →
      ∃ fin, (stopRecording n3 (interceptedSend (interceptedSend
          (startRecording sid n0 recorderInit).2
          (WireData.text "42[\"draw\",\x7b\"x\":1,\"y\":2\x7d]") n1).2
          (WireData.text "42[\"draw\",\x7b\"x\":3,\"y\":4\x7d]") n2).2).1 = some fin ∧
        fin.strokes.length = 2 ∧ fin.startTime ≤ fin.endTime) := by
  refine ⟨?_, ?_, ?_⟩
  · intro st now sess hrec hcs hle
    rcases st with ⟨rec, cs, buf, pat, cb⟩
    simp only at hrec hcs
    subst hrec
    subst hcs
    exact ⟨{ sess with endTime := now, strokes := buf }, rfl, rfl, rfl, rfl, hle⟩
  · intro st now hrec
    rcases st with ⟨rec, cs, buf, pat, cb⟩
    simp only at hrec
    subst hrec
    cases cs <;> rfl
  · intro sid n0 n1 n2 n3 h03
    exact ⟨⟨sid, n0, n3,
      [⟨"line", Json.num 1, Json.num 2, Json.null, Json.null, Json.num 5,
        Json.str "#000000", Json.num 100, n1, none⟩,
       ⟨"line", Json.num 3, Json.num 4, Json.null, Json.null, Json.num 5,
        Json.str "#000000", Json.num 100, n2, none⟩], sessionMetadata⟩, rfl, rfl, h03⟩

/-- C6 witness: the scenario run at concrete times. -/
theorem recording_lifecycle_witness :
    (∃ fin, (stopRecording 9 (interceptedSend (interceptedSend
        (startRecording "w6" 4 recorderInit).2
        (WireData.text "42[\"draw\",\x7b\"x\":1,\"y\":2\x7d]") 5).2
        (WireData.text "42[\"draw\",\x7b\"x\":3,\"y\":4\x7d]") 6).2).1 = some fin ∧
      fin.strokes.length = 2 ∧ fin.startTime ≤ fin.endTime) ∧
    (stopRecording 9 recorderInit).1 = none :=
  ⟨recording_lifecycle.2.2 "w6" 4 5 6 9 (by norm_num),
   recording_lifecycle.2.1 recorderInit 9 rfl⟩

/-- The handler `_interceptedSend` never touches the session object or the recording
flag — captured points go only into the stroke buffer. -/
lemma interceptedSend_preserves (st : RecorderState) (d : WireData) (now : Nat) :
    (interceptedSend st d now).2.currentSession = st.currentSession ∧
    (interceptedSend st d now).2.isRecording = st.isRecording := by
  rcases st with ⟨rec, cs, buf, pat, cb⟩
  cases rec
  · exact ⟨rfl, rfl⟩
  · cases cs with
    | none => exact ⟨rfl, rfl⟩
    | some sess =>
      cases d with
      | binary => exact ⟨rfl, rfl⟩
      | text s =>
        cases h : convertToStrokePointOpt (protocolParse now s) with
        | none => simp [interceptedSend, h]
        | some pt => cases cb <;> simp [interceptedSend, h]

/-- Every Recorder operation preserves the C8 invariant. -/
lemma recStep_inv (st : RecorderState) (op : RecOp) (h : RecInv st) : RecInv (recStep st op) := by
  cases op with
  | start sid now =>
    intro sess hrec hcs
    have hc : (recStep st (RecOp.start sid now)).currentSession =
        some ⟨sid, now, 0, [], sessionMetadata⟩ := rfl
    rw [hc] at hcs
    injection hcs with hcs
    rw [← hcs]
  | stop now =>
    intro sess hrec hcs
    rcases st with ⟨rec, cs, buf, pat, cb⟩
    cases rec
    · cases cs <;> exact h sess hrec hcs
    · cases cs with
      | none => exact h sess hrec hcs
      | some s0 => simp [recStep, stopRecording] at hrec
  | send d now =>
    intro sess hrec hcs
    obtain ⟨hc, hr⟩ := interceptedSend_preserves st d now
    simp only [recStep] at hrec hcs
    rw [hr] at hrec
    rw [hc] at hcs
    exact h sess hrec hcs
  | setCallback b =>
    intro sess hrec hcs
    exact h sess hrec hcs

/-- The C8 invariant holds in every reachable Recorder state. -/
lemma recRun_inv (ops : List RecOp) : RecInv (recRun ops) := by
  rw [recRun]
  have hfold : ∀ st, RecInv st → RecInv (List.foldl recStep st ops) := by
    induction ops with
    | nil => intro st h; exact h
    | cons op rest ih => intro st h; exact ih _ (recStep_inv st op h)
  exact hfold recorderInit (fun sess hrec _ => absurd hrec (by decide))

/-- C8: in every state reachable by any sequence of Recorder operations, the
live session held while recording has an empty `strokes` array — captured
points accumulate only in the internal buffer (`getStrokeCount`), the
interception never touches the session object, and the buffer is copied into
`strokes` only when `stopRecording` finalizes. -/
theorem live_session_strokes_empty :
    (∀ (ops : List RecOp) (sess : Session), (recRun ops).isRecording = true →
      (recRun ops).currentSession = some sess → sess.strokes = []) ∧
    (∀ (st : RecorderState) (d : WireData) (now : Nat),
      (interceptedSend st d now).2.currentSession = st.currentSession ∧
      (interceptedSend st d now).2.isRecording = st.isRecording) ∧
    (∀ (st : RecorderState) (now : Nat) (sess : Session), st.isRecording = true →
      st.currentSession = some sess →
      ∃ fin, (stopRecording now st).1 = some fin ∧ fin.strokes = st.strokeBuffer ∧
        fin.strokes.length = getStrokeCount st) := by
  refine ⟨?_, interceptedSend_preserves, ?_⟩
  · intro ops sess hrec hcs
    exact recRun_inv ops sess hrec hcs
  · intro st now sess hrec hcs
    rcases st with ⟨rec, cs, buf, pat, cb⟩
    simp only at hrec hcs
    subst hrec
    subst hcs
    exact ⟨{ sess with endTime := now, strokes := buf }, rfl, rfl, rfl⟩

/-- C8 witness: after a start and one captured draw frame the live session
still has no strokes while the buffer holds one. -/
theorem live_session_strokes_empty_witness :
    (⟨"w8", 0, 0, [], sessionMetadata⟩ : Session).strokes = [] ∧
    getStrokeCount (recRun [RecOp.start "w8" 0,
      RecOp.send (WireData.text "42[\"draw\",\x7b\"x\":1,\"y\":2\x7d]") 1]) = 1 :=
  ⟨live_session_strokes_empty.1
      [RecOp.start "w8" 0,
       RecOp.send (WireData.text "42[\"draw\",\x7b\"x\":1,\"y\":2\x7d]") 1]
      ⟨"w8", 0, 0, [], sessionMetadata⟩ rfl rfl,
   rfl⟩

/-- C9: importing the export object built from a finalized session reproduces
the `strokes` sequence exactly — same order, same field values — and
preserves the summary times; the id is preserved whenever it is non-empty
(an empty id would fall to the `imported_…` default through `||`). -/
theorem export_import_round_trip (s : Session) (now : Nat) :
    (importRecording now (exportRecording s)).strokes = s.strokes ∧
    (importRecording now (exportRecording s)).startTime = (s.startTime : ℚ) ∧
    (importRecording now (exportRecording s)).endTime = (s.endTime : ℚ) ∧
    (s.id ≠ "" → (importRecording now (exportRecording s)).id = s.id) := by
  refine ⟨rfl, ?_, ?_, ?_⟩
  · by_cases h : (s.startTime : ℚ) = 0
    · simp [importRecording, exportRecording, h]
    · simp [importRecording, exportRecording, h]
  · by_cases h : (s.endTime : ℚ) = 0
    · simp [importRecording, exportRecording, h]
    · simp [importRecording, exportRecording, h]
  · intro h
    simp [importRecording, exportRecording, h]

/-- C9 witness. -/
theorem export_import_round_trip_witness :
    (importRecording 5 (exportRecording ⟨"w9", 1, 2,
        [⟨"line", Json.num 1, Json.num 2, Json.null, Json.null, Json.num 5,
          Json.str "#000000", Json.num 100, 0, none⟩], Json.obj []⟩)).strokes =
      [⟨"line", Json.num 1, Json.num 2, Json.null, Json.null, Json.num 5,
        Json.str "#000000", Json.num 100, 0, none⟩] ∧
    (importRecording 5 (exportRecording ⟨"w9", 1, 2,
        [⟨"line", Json.num 1, Json.num 2, Json.null, Json.null, Json.num 5,
          Json.str "#000000", Json.num 100, 0, none⟩], Json.obj []⟩)).id = "w9" :=
  ⟨(export_import_round_trip ⟨"w9", 1, 2,
      [⟨"line", Json.num 1, Json.num 2, Json.null, Json.null, Json.num 5,
        Json.str "#000000", Json.num 100, 0, none⟩], Json.obj []⟩ 5).1,
   (export_import_round_trip ⟨"w9", 1, 2,
      [⟨"line", Json.num 1, Json.num 2, Json.null, Json.null, Json.num 5,
        Json.str "#000000", Json.num 100, 0, none⟩], Json.obj []⟩ 5).2.2.2 (by decide)⟩

/-- C7 witness: a heartbeat frame (tag 2) decodes to `none`, and a successful
decode of a clear frame exhibits the EVENT/whitelist shape. -/
theorem protocol_parse_null_conditions_witness :
    protocolParse 0 (String.mk ('2' :: ['p', 'i', 'n', 'g'])) = none ∧
    (∃ pkt args, parseSocketPacket "42[\"clear\"]" = some pkt ∧ pkt.type = 2 ∧
      pkt.data = PacketData.json (Json.arr (Json.str
        (⟨"clear", normalizeDrawingData "clear" (Json.obj []), 0⟩ : DrawingEvent).type :: args)) ∧
      (⟨"clear", normalizeDrawingData "clear" (Json.obj []), 0⟩ : DrawingEvent).type ∈
        DRAWING_EVENTS) :=
  ⟨protocol_parse_null_conditions.1 0 '2' ['p', 'i', 'n', 'g'] rfl (by decide),
   protocol_parse_null_conditions.2 0 "42[\"clear\"]"
     ⟨"clear", normalizeDrawingData "clear" (Json.obj []), 0⟩ rfl⟩
